import Mathlib

/-!
Shallow embedding of the churn decision service in `src/main.py` of the
`praykar/biautomate` repository, together with theorems settling the spec
claims about it.

Python floats are modelled as rational numbers `ℚ`; the spec and claims
treat probabilities as real numbers, and every constant in the source
(0.75, 0.50, 0.2, 0.01) is a decimal literal, so `ℚ` represents the
intended arithmetic exactly.  Feature dictionaries become association
lists with a `dict.get`-style lookup, the possibly failing predictor call
becomes a function into `Except String ℚ`, and the `try`/`except` block of
the `decide` endpoint becomes a match on that `Except` value.
-/

set_option linter.unusedVariables false

namespace Biautomate

/-- `RecommendedAction` enum from `src/main.py` lines 12-15. -/
inductive RecommendedAction where
  | PROACTIVE_RETENTION
  | MONITOR_ACCOUNT
  | NO_ACTION
  deriving DecidableEq, Repr

/-- `ConfidenceLevel` enum from `src/main.py` lines 17-20. -/
inductive ConfidenceLevel where
  | HIGH
  | MEDIUM
  | LOW
  deriving DecidableEq, Repr

/-- One entry of the threshold table: a `{"threshold": ..., "action": ..., "confidence": ...}` dict. -/
structure Rule where
  threshold : ℚ
  action : RecommendedAction
  confidence : ConfidenceLevel
  deriving DecidableEq, Repr

/-- The shape of `CHURN_DECISION_THRESHOLDS`: two named rules. -/
structure Thresholds where
  high_risk : Rule
  medium_risk : Rule
  deriving DecidableEq, Repr

/-- `CHURN_DECISION_THRESHOLDS` from `src/main.py` lines 58-61. -/
def CHURN_DECISION_THRESHOLDS : Thresholds :=
  { high_risk := { threshold := 3/4
                   action := RecommendedAction.PROACTIVE_RETENTION
                   confidence := ConfidenceLevel.HIGH }
    medium_risk := { threshold := 1/2
                     action := RecommendedAction.MONITOR_ACCOUNT
                     confidence := ConfidenceLevel.MEDIUM } }

/-- A feature dictionary: mapping from feature name to numeric value. -/
def FeatureSet : Type := List (String × ℚ)

/-- Python `d.get(key, default)` on a feature dictionary. -/
def dict_get (d : FeatureSet) (key : String) (dflt : ℚ) : ℚ :=
  match d.find? (fun kv => kv.1 == key) with
  | some kv => kv.2
  | none => dflt

/-- The heuristic in `get_churn_prediction_from_model_server`
(`src/main.py` lines 65-80): `features.get("support_tickets_last_30d", 0) * 0.2
+ features.get("tenure_months", 12) * 0.01`. -/
def get_churn_prediction_from_model_server (customer_id : String) (features : FeatureSet) : ℚ :=
  dict_get features "support_tickets_last_30d" 0 * (2/10)
    + dict_get features "tenure_months" 12 * (1/100)

/-- `make_churn_decision` from `src/main.py` lines 83-94: strict comparisons
against the high-risk then the medium-risk threshold, first match wins. -/
def make_churn_decision (probability : ℚ) : RecommendedAction × ConfidenceLevel :=
  if probability > CHURN_DECISION_THRESHOLDS.high_risk.threshold then
    (CHURN_DECISION_THRESHOLDS.high_risk.action, CHURN_DECISION_THRESHOLDS.high_risk.confidence)
  else if probability > CHURN_DECISION_THRESHOLDS.medium_risk.threshold then
    (CHURN_DECISION_THRESHOLDS.medium_risk.action, CHURN_DECISION_THRESHOLDS.medium_risk.confidence)
  else
    (RecommendedAction.NO_ACTION, ConfidenceLevel.LOW)

/-- `FeaturePayload` pydantic model (`src/main.py` lines 24-30). -/
structure FeaturePayload where
  customer_id : String
  features : FeatureSet

/-- `DecisionResponse` pydantic model (`src/main.py` lines 33-38). -/
structure DecisionResponse where
  customer_id : String
  churn_probability : ℚ
  recommended_action : RecommendedAction
  confidence_level : ConfidenceLevel
  deriving DecidableEq, Repr

/-- A predictor collaborator: may fail with an exception message. -/
def Predictor : Type := String → FeatureSet → Except String ℚ

/-- The current simulated predictor: the heuristic, which never raises. -/
def heuristic_predictor : Predictor :=
  fun customer_id features =>
    Except.ok (get_churn_prediction_from_model_server customer_id features)

/-- The generic error message built by the `except` clause of `decide`
(`src/main.py` line 123): `f"Internal server error in decision engine: {e}"`. -/
def generic_error_detail (e : String) : String :=
  "Internal server error in decision engine: " ++ e

/-- The `decide` endpoint (`src/main.py` lines 97-123): call the predictor,
classify the score, assemble a `DecisionResponse`; any exception raised in
the `try` block is converted into the single generic 500 error. -/
def decide (predict : Predictor) (payload : FeaturePayload) : Except String DecisionResponse :=
  match (do
      let churn_probability ← predict payload.customer_id payload.features
      let ac := make_churn_decision churn_probability
      pure { customer_id := payload.customer_id
             churn_probability := churn_probability
             recommended_action := ac.1
             confidence_level := ac.2 } : Except String DecisionResponse) with
  | Except.ok r => Except.ok r
  | Except.error e => Except.error (generic_error_detail e)

/-- Stateful rendering of `make_churn_decision` over the process-wide
threshold table: the Python function reads the global dict
`CHURN_DECISION_THRESHOLDS` and contains no assignment to it, so the state
is returned unchanged. -/
def make_churn_decision_st (probability : ℚ) (s : Thresholds) :
    (RecommendedAction × ConfidenceLevel) × Thresholds :=
  ((if probability > s.high_risk.threshold then
      (s.high_risk.action, s.high_risk.confidence)
    else if probability > s.medium_risk.threshold then
      (s.medium_risk.action, s.medium_risk.confidence)
    else
      (RecommendedAction.NO_ACTION, ConfidenceLevel.LOW)), s)

/-- Stateful rendering of the `decide` endpoint over the threshold table:
request handling reads the table only through `make_churn_decision_st`. -/
def decide_st (predict : Predictor) (payload : FeaturePayload) (s : Thresholds) :
    Except String DecisionResponse × Thresholds :=
  match predict payload.customer_id payload.features with
  | Except.error e => (Except.error (generic_error_detail e), s)
  | Except.ok churn_probability =>
    let acs := make_churn_decision_st churn_probability s
    (Except.ok { customer_id := payload.customer_id
                 churn_probability := churn_probability
                 recommended_action := acs.1.1
                 confidence_level := acs.1.2 }, acs.2)

/-- Severity order on actions: No_Action < Monitor_Account < Proactive_Retention. -/
def risk_severity : RecommendedAction → ℕ
  | RecommendedAction.NO_ACTION => 0
  | RecommendedAction.MONITOR_ACCOUNT => 1
  | RecommendedAction.PROACTIVE_RETENTION => 2

/-- The rule-engine body of `make_churn_decision`, with the concrete
thresholds substituted in. -/
theorem make_churn_decision_eq (p : ℚ) :
    make_churn_decision p =
      if p > 3/4 then (RecommendedAction.PROACTIVE_RETENTION, ConfidenceLevel.HIGH)
      else if p > 1/2 then (RecommendedAction.MONITOR_ACCOUNT, ConfidenceLevel.MEDIUM)
      else (RecommendedAction.NO_ACTION, ConfidenceLevel.LOW) := rfl

/-- C1: every probability strictly above 0.75 is classified as
(Proactive_Retention_Offer, High); in particular 0.80 is. -/
theorem claim_C1_high_band :
    (∀ p : ℚ, 3/4 < p →
      make_churn_decision p =
        (RecommendedAction.PROACTIVE_RETENTION, ConfidenceLevel.HIGH)) ∧
    make_churn_decision (80/100) =
      (RecommendedAction.PROACTIVE_RETENTION, ConfidenceLevel.HIGH) := by
  constructor
  · intro p h
    rw [make_churn_decision_eq, if_pos h]
  · norm_num [make_churn_decision_eq]

/-- C1 witness: the universal part applied at the concrete input 0.80. -/
theorem claim_C1_high_band_witness :
    make_churn_decision (80/100) =
      (RecommendedAction.PROACTIVE_RETENTION, ConfidenceLevel.HIGH) :=
  claim_C1_high_band.1 (80/100) (by norm_num)

/-- C2: every probability in (0.50, 0.75] is classified as
(Monitor_Account, Medium); the boundary 0.75 itself lands here because the
comparison against the high-risk threshold is strict. -/
theorem claim_C2_medium_band :
    (∀ p : ℚ, 1/2 < p → p ≤ 3/4 →
      make_churn_decision p =
        (RecommendedAction.MONITOR_ACCOUNT, ConfidenceLevel.MEDIUM)) ∧
    make_churn_decision (3/4) =
      (RecommendedAction.MONITOR_ACCOUNT, ConfidenceLevel.MEDIUM) ∧
    make_churn_decision (3/4) ≠
      (RecommendedAction.PROACTIVE_RETENTION, ConfidenceLevel.HIGH) := by
  refine ⟨?_, ?_, ?_⟩
  · intro p h1 h2
    rw [make_churn_decision_eq, if_neg (by linarith), if_pos h1]
  · norm_num [make_churn_decision_eq]
  · norm_num [make_churn_decision_eq]
    decide

/-- C2 witness: the universal part applied at the concrete input 0.60. -/
theorem claim_C2_medium_band_witness :
    make_churn_decision (60/100) =
      (RecommendedAction.MONITOR_ACCOUNT, ConfidenceLevel.MEDIUM) :=
  claim_C2_medium_band.1 (60/100) (by norm_num) (by norm_num)

/-- C3: every probability at or below 0.50 is classified as
(No_Action_Needed, Low); the boundary 0.50 itself lands here because the
comparison against the medium-risk threshold is strict. -/
theorem claim_C3_low_band :
    (∀ p : ℚ, p ≤ 1/2 →
      make_churn_decision p =
        (RecommendedAction.NO_ACTION, ConfidenceLevel.LOW)) ∧
    make_churn_decision (1/2) =
      (RecommendedAction.NO_ACTION, ConfidenceLevel.LOW) ∧
    make_churn_decision (1/2) ≠
      (RecommendedAction.MONITOR_ACCOUNT, ConfidenceLevel.MEDIUM) := by
  refine ⟨?_, ?_, ?_⟩
  · intro p h
    rw [make_churn_decision_eq, if_neg (by linarith), if_neg (by linarith)]
  · norm_num [make_churn_decision_eq]
  · norm_num [make_churn_decision_eq]
    decide

/-- C3 witness: the universal part applied at the concrete input 0.10. -/
theorem claim_C3_low_band_witness :
    make_churn_decision (10/100) =
      (RecommendedAction.NO_ACTION, ConfidenceLevel.LOW) :=
  claim_C3_low_band.1 (10/100) (by norm_num)

/-- C4 counterexample: the input 2 lies outside [0,1] (it is greater
than 1) yet is classified as (Proactive_Retention_Offer, High), not as the
(No_Action_Needed, Low) band the claim asserts. -/
theorem claim_C4_counterexample :
    make_churn_decision 2 =
      (RecommendedAction.PROACTIVE_RETENTION, ConfidenceLevel.HIGH) ∧
    make_churn_decision 2 ≠
      (RecommendedAction.NO_ACTION, ConfidenceLevel.LOW) := by
  norm_num [make_churn_decision_eq]
  decide

/-- C4 amended: `make_churn_decision` is total over all inputs with no
error conditions; negative inputs silently fall into the
(No_Action_Needed, Low) band, while inputs greater than 1 silently fall
into the (Proactive_Retention_Offer, High) band. -/
theorem claim_C4_out_of_range :
    (∀ p : ℚ, p < 0 →
      make_churn_decision p =
        (RecommendedAction.NO_ACTION, ConfidenceLevel.LOW)) ∧
    (∀ p : ℚ, 1 < p →
      make_churn_decision p =
        (RecommendedAction.PROACTIVE_RETENTION, ConfidenceLevel.HIGH)) := by
  constructor
  · intro p h
    exact claim_C3_low_band.1 p (by linarith)
  · intro p h
    exact claim_C1_high_band.1 p (by linarith)

/-- C4 witness: the two universal parts applied at -1 and at 2. -/
theorem claim_C4_out_of_range_witness :
    make_churn_decision (-1) =
      (RecommendedAction.NO_ACTION, ConfidenceLevel.LOW) ∧
    make_churn_decision 2 =
      (RecommendedAction.PROACTIVE_RETENTION, ConfidenceLevel.HIGH) :=
  ⟨claim_C4_out_of_range.1 (-1) (by norm_num),
   claim_C4_out_of_range.2 2 (by norm_num)⟩

/-- C5: the classifier is monotone in risk severity: if p1 ≤ p2 then the
severity of the action assigned to p2 is at least that assigned to p1,
under the order No_Action < Monitor_Account < Proactive_Retention. -/
theorem claim_C5_monotone (p1 p2 : ℚ) (h : p1 ≤ p2) :
    risk_severity (make_churn_decision p1).1 ≤
      risk_severity (make_churn_decision p2).1 := by
  rw [make_churn_decision_eq, make_churn_decision_eq]
  split_ifs with h1 h2 h3 h4 h5 <;>
    simp [risk_severity] <;> linarith

/-- C5 witness: monotonicity applied at the concrete pair 0.25 ≤ 0.90. -/
theorem claim_C5_monotone_witness :
    risk_severity (make_churn_decision (25/100)).1 ≤
      risk_severity (make_churn_decision (90/100)).1 :=
  claim_C5_monotone (25/100) (90/100) (by norm_num)

/-- C6: the heuristic predictor computes
`tickets * 0.2 + tenure * 0.01` with missing tickets defaulting to 0 and
missing tenure defaulting to 12; on
`{support_tickets_last_30d: 3, tenure_months: 6}` it returns exactly 0.66,
which classifies to (Monitor_Account, Medium). -/
theorem claim_C6_heuristic :
    (∀ (cid : String) (features : FeatureSet),
      get_churn_prediction_from_model_server cid features =
        dict_get features "support_tickets_last_30d" 0 * (2/10)
          + dict_get features "tenure_months" 12 * (1/100)) ∧
    (∀ cid : String,
      get_churn_prediction_from_model_server cid
        [("tenure_months", 6)] = 6/100) ∧
    (∀ cid : String,
      get_churn_prediction_from_model_server cid
        [("support_tickets_last_30d", 3)] = 72/100) ∧
    get_churn_prediction_from_model_server "cust_12345"
      [("support_tickets_last_30d", 3), ("tenure_months", 6)] = 66/100 ∧
    make_churn_decision (66/100) =
      (RecommendedAction.MONITOR_ACCOUNT, ConfidenceLevel.MEDIUM) := by
  refine ⟨fun cid features => rfl, ?_, ?_, ?_, ?_⟩
  · intro cid
    simp [get_churn_prediction_from_model_server, dict_get, List.find?]
    norm_num
  · intro cid
    simp [get_churn_prediction_from_model_server, dict_get, List.find?]
    norm_num
  · simp [get_churn_prediction_from_model_server, dict_get, List.find?]
    norm_num
  · norm_num [make_churn_decision_eq]

/-- C7: the `decide` endpoint either returns a complete `DecisionResponse`
assembled from the predictor's score, or — when the predictor raises — the
single generic internal-error response embedding the exception text; never
anything in between. -/
theorem claim_C7_error_handling (predict : Predictor) (payload : FeaturePayload) :
    (∃ q : ℚ, predict payload.customer_id payload.features = Except.ok q ∧
      decide predict payload = Except.ok
        { customer_id := payload.customer_id
          churn_probability := q
          recommended_action := (make_churn_decision q).1
          confidence_level := (make_churn_decision q).2 }) ∨
    (∃ e : String, predict payload.customer_id payload.features = Except.error e ∧
      decide predict payload = Except.error (generic_error_detail e)) := by
  cases h : predict payload.customer_id payload.features with
  | ok q =>
    left
    refine ⟨q, rfl, ?_⟩
    simp [Biautomate.decide, h, Except.bind, bind, pure, Except.pure]
  | error e =>
    right
    refine ⟨e, rfl, ?_⟩
    simp [Biautomate.decide, h, Except.bind, bind]

/-- C8: the rule engine is deterministic and side-effect free: running it
leaves the threshold-table state unchanged, a second run at the same
probability returns the same (action, confidence) pair, and its result on
the process-wide table coincides with the pure classifier, which reads
nothing but its argument and the table. -/
theorem claim_C8_deterministic (p : ℚ) (s : Thresholds) :
    (make_churn_decision_st p s).2 = s ∧
    (make_churn_decision_st p (make_churn_decision_st p s).2).1 =
      (make_churn_decision_st p s).1 ∧
    (make_churn_decision_st p CHURN_DECISION_THRESHOLDS).1 =
      make_churn_decision p :=
  ⟨rfl, rfl, rfl⟩

/-- C9: the threshold table is static process-wide configuration: neither
classification nor request handling mutates it, so every request observes
the same table {0.75 → Proactive_Retention/High; 0.50 → Monitor_Account/Medium}. -/
theorem claim_C9_static_table (predict : Predictor) (payload : FeaturePayload)
    (p : ℚ) (s : Thresholds) :
    (make_churn_decision_st p s).2 = s ∧
    (decide_st predict payload s).2 = s ∧
    (decide_st predict payload CHURN_DECISION_THRESHOLDS).2 =
      CHURN_DECISION_THRESHOLDS ∧
    CHURN_DECISION_THRESHOLDS =
      { high_risk := { threshold := 3/4
                       action := RecommendedAction.PROACTIVE_RETENTION
                       confidence := ConfidenceLevel.HIGH }
        medium_risk := { threshold := 1/2
                         action := RecommendedAction.MONITOR_ACCOUNT
                         confidence := ConfidenceLevel.MEDIUM } } := by
  refine ⟨rfl, ?_, ?_, rfl⟩
  · cases h : predict payload.customer_id payload.features with
    | ok q => simp [decide_st, h, make_churn_decision_st]
    | error e => simp [decide_st, h]
  · cases h : predict payload.customer_id payload.features with
    | ok q => simp [decide_st, h, make_churn_decision_st]
    | error e => simp [decide_st, h]

/-- C10: on success the endpoint echoes the request's customer_id
unchanged and returns as churn_probability the exact raw value produced by
the predictor, with no rounding, clamping or other transformation. -/
theorem claim_C10_verbatim (predict : Predictor) (payload : FeaturePayload)
    (q : ℚ) (h : predict payload.customer_id payload.features = Except.ok q) :
    decide predict payload = Except.ok
      { customer_id := payload.customer_id
        churn_probability := q
        recommended_action := (make_churn_decision q).1
        confidence_level := (make_churn_decision q).2 } := by
  simp [Biautomate.decide, h, Except.bind, bind, pure, Except.pure]

/-- C10 witness: a predictor producing the out-of-range score 5 has that
score echoed verbatim in the response. -/
theorem claim_C10_verbatim_witness :
    decide (fun cid features => Except.ok 5)
        { customer_id := "cust_12345", features := [] } =
      Except.ok { customer_id := "cust_12345"
                  churn_probability := 5
                  recommended_action := RecommendedAction.PROACTIVE_RETENTION
                  confidence_level := ConfidenceLevel.HIGH } := by
  have h := claim_C10_verbatim (fun cid features => Except.ok 5)
    { customer_id := "cust_12345", features := [] } 5 rfl
  rw [h]
  norm_num [make_churn_decision_eq]

end Biautomate
